import Mathlib

/-!
# ConnectTool: the tool window of `online_game_tool.cpp`

A shallow embedding of `main` in `src/online_game_tool.cpp`: the join and
disconnect button handlers, the shutdown cleanup, the friend filter, the
room-status table and the start-up / shutdown control flow.  The Steam
managers, the TCP server and the widget toolkit are only called from this
file; their operations appear here as fields of `Collaborators` and
`FrameInput`.
-/

namespace ConnectTool

/-! ## Basic data -/

/-- A `std::string` / C string, as its sequence of byte values. -/
abbrev Str := List Nat

/-- The 64-bit value of a `CSteamID`. -/
abbrev SteamID := Nat

/-- An `HSteamNetConnection` handle. -/
abbrev Conn := Nat

/-- The constant `k_HSteamNetConnection_Invalid`. -/
def k_HSteamNetConnection_Invalid : Conn := 0

/-- The exceptions `std::stoull` can throw. -/
inductive Exn where
  | invalid_argument
  | out_of_range
  deriving DecidableEq, Repr

/-- The object behind `std::unique_ptr<TCPServer> server`.  `inst` tells the
instances apart (one per `std::make_unique<TCPServer>`), `port` is the
constructor argument, `started` is what `start()` returned. -/
structure TCPServer where
  inst : Nat
  port : Nat
  started : Bool
  clients : Nat
  deriving DecidableEq, Repr

/-- The operations `main` calls on `steamManager`, `roomManager`, `SteamUser()`,
`SteamFriends()` and `SteamUtils`, over the state `X` those objects hold.  The
room manager is built from a pointer to the networking manager, so both act on
the same `X`. -/
structure Collaborators (X : Type) where
  isHost : X → Bool
  isConnected : X → Bool
  joinHost : X → Nat → Bool × X
  disconnect : X → X
  startHosting : X → X
  leaveLobby : X → X
  lobbyValid : X → Bool
  getLobbyMembers : X → List SteamID
  mySteamID : SteamID
  personaName : SteamID → Str
  getConnections : X → List Conn
  getConnectionInfo : X → Conn → Option SteamID
  getConnectionPing : X → Conn → Int
  getConnectionRelayInfo : X → Conn → Str
  getHostPing : X → Int
  getConnection : X → Conn
  getFriendsList : List (SteamID × Str)
  matchmaking : Bool
  update : X → X

/-- The variables of `main` that outlive a frame: the globals `server` and
`localPort`, the text buffers, and the managers' state `ext`.  `nextServer`
counts the `TCPServer` instances built so far, `stopCalls` lists the instances
on which `main` has called `stop()`, oldest first, and `invites` the lobby
invitations sent. -/
structure State (X : Type) where
  server : Option TCPServer
  localPort : Int
  ext : X
  joinBuffer : Str
  filterBuffer : Str
  nextServer : Nat
  stopCalls : List Nat
  invites : List SteamID
  deriving DecidableEq, Repr

/-- What the user and the operating system contribute to one frame: which
buttons report a click, what the text and number fields were edited to
(`none`: not edited), and what `TCPServer::start` returns if it is called. -/
structure FrameInput where
  hostPressed : Bool
  joinText : Option Str
  joinPressed : Bool
  disconnectPressed : Bool
  portValue : Option Int
  filterText : Option Str
  inviteClicked : SteamID → Bool
  startOk : Bool

/-- The state `main` enters its loop with (lines 23-26 and 93-96). -/
def initState {X : Type} (x : X) : State X :=
  { server := none, localPort := 0, ext := x, joinBuffer := [], filterBuffer := [],
    nextServer := 0, stopCalls := [], invites := [] }

/-! ## `std::stoull` -/

/-- The C `isspace` in the "C" locale. -/
def isspace (c : Nat) : Bool := c == 32 || (9 ≤ c && c ≤ 13)

/-- The C `isdigit`. -/
def isdigit (c : Nat) : Bool := 48 ≤ c && c ≤ 57

/-- Removes the optional sign `strtoull` accepts; the flag tells a minus. -/
def takeSign : Str → Bool × Str
  | 45 :: r => (true, r)
  | 43 :: r => (false, r)
  | s => (false, s)

/-- The value of a run of decimal digits. -/
def digitsValue (ds : Str) : Nat := ds.foldl (fun a d => 10 * a + (d - 48)) 0

/-- `std::stoull(str)` with the default base 10: leading white space and one
sign are skipped, the longest run of digits is converted; no digit throws
`invalid_argument`, a value above `ULLONG_MAX` throws `out_of_range`, and a
minus sign negates modulo `2^64`. -/
def stoull (str : Str) : Except Exn Nat :=
  let signed := takeSign (str.dropWhile isspace)
  let ds := signed.2.takeWhile isdigit
  if ds.isEmpty then Except.error Exn.invalid_argument
  else if 2 ^ 64 ≤ digitsValue ds then Except.error Exn.out_of_range
  else Except.ok (if signed.1 then (2 ^ 64 - digitsValue ds) % 2 ^ 64 else digitsValue ds)

/-- The text a `char[256]` buffer holds after the widget stored `t` in it: at
most 255 bytes, ending at the first NUL. -/
def storeText (t : Str) : Str := (t.take 255).takeWhile (fun c => c != 0)

/-! ## The tool window (lines 149-200) -/

/-- Lines 150-154: the port and client count shown while `server` is non-null. -/
def listenerStatus (server : Option TCPServer) : Option (Nat × Nat) :=
  match server with
  | some srv => some (8888, srv.clients)
  | none => none

/-- Lines 166-175, the body of the join button. -/
def joinButton {X : Type} (env : Collaborators X) (startOk : Bool) (s : State X) :
    Except Exn (State X) :=
  match stoull s.joinBuffer with
  | Except.error e => Except.error e
  | Except.ok hostID =>
    let r := env.joinHost s.ext hostID
    if r.1 then
      Except.ok { s with
        ext := r.2
        server := some { inst := s.nextServer, port := 8888, started := startOk, clients := 0 }
        nextServer := s.nextServer + 1 }
    else Except.ok { s with ext := r.2 }

/-- Lines 184-190, the body of the disconnect button. -/
def disconnectButton {X : Type} (env : Collaborators X) (s : State X) : State X :=
  let x := env.disconnect (env.leaveLobby s.ext)
  match s.server with
  | some srv => { s with ext := x, server := none, stopCalls := s.stopCalls ++ [srv.inst] }
  | none => { s with ext := x }

/-- Lines 288-291, the cleanup after the main loop. -/
def shutdownCleanup {X : Type} (s : State X) : State X :=
  match s.server with
  | some srv => { s with stopCalls := s.stopCalls ++ [srv.inst] }
  | none => s

/-- The C `tolower` in the "C" locale, on a byte. -/
def tolower (c : Nat) : Nat := if 65 ≤ c ∧ c ≤ 90 then c + 32 else c

/-- Whether `needle` starts `hay`. -/
def startsWith : Str → Str → Bool
  | _, [] => true
  | [], _ :: _ => false
  | h :: hs, n :: ns => h == n && startsWith hs ns

/-- `std::string::find(needle)` from position `pos`: the first position at
which `needle` occurs, `none` for `npos`. -/
def findFrom (needle : Str) : Str → Nat → Option Nat
  | [], pos => if needle.isEmpty then some pos else none
  | h :: hs, pos =>
    if startsWith (h :: hs) needle then some pos else findFrom needle hs (pos + 1)

/-- `std::string::find(needle)`. -/
def find (hay needle : Str) : Option Nat := findFrom needle hay 0

/-- The bytes of the label text before the friend name, "邀请 ". -/
def inviteLabel : Str := [233, 130, 128, 232, 175, 183, 32]

/-- Line 110: whether the friend named `name` passes the filter in `filterBuffer`. -/
def friendShown (filterBuffer name : Str) : Bool :=
  let nameStr := name.map tolower
  let filterStr := filterBuffer.map tolower
  filterStr.isEmpty || (find nameStr filterStr).isSome

/-- Lines 103-128: the invite buttons drawn, each with its `PushID` value and
its label. -/
def renderInviteFriends (friends : List (SteamID × Str)) (filterBuffer : Str) :
    List (SteamID × Str) :=
  match friends with
  | [] => []
  | friendPair :: rest =>
    if friendShown filterBuffer friendPair.2 then
      (friendPair.1, inviteLabel ++ friendPair.2) :: renderInviteFriends rest filterBuffer
    else renderInviteFriends rest filterBuffer

/-- Lines 113-120: the friends whose invitation is sent in this frame. -/
def invitesSent {X : Type} (env : Collaborators X) (inp : FrameInput) (filterBuffer : Str) :
    List SteamID :=
  ((renderInviteFriends env.getFriendsList filterBuffer).filter
    (fun b => inp.inviteClicked b.1 && env.matchmaking)).map Prod.fst

/-- Lines 157-177: the block shown while neither hosting nor connected. -/
def idleBlock {X : Type} (env : Collaborators X) (inp : FrameInput) (s : State X) :
    Except Exn (State X) :=
  if !env.isHost s.ext && !env.isConnected s.ext then
    let s1 := if inp.hostPressed then { s with ext := env.startHosting s.ext } else s
    let s2 := match inp.joinText with
      | some t => { s1 with joinBuffer := storeText t }
      | none => s1
    if inp.joinPressed then joinButton env inp.startOk s2 else Except.ok s2
  else Except.ok s

/-- Lines 178-198: the block shown while hosting or connected. -/
def sessionBlock {X : Type} (env : Collaborators X) (inp : FrameInput) (s : State X) :
    State X :=
  if env.isHost s.ext || env.isConnected s.ext then
    let s1 := if inp.disconnectPressed then disconnectButton env s else s
    let s2 := if env.isHost s1.ext then
        match inp.portValue with
        | some v => { s1 with localPort := v }
        | none => s1
      else s1
    let s3 := match inp.filterText with
      | some t => { s2 with filterBuffer := storeText t }
      | none => s2
    { s3 with invites := s3.invites ++ invitesSent env inp s3.filterBuffer }
  else s

/-- Lines 149-200: the tool window of one frame. -/
def toolWindow {X : Type} (env : Collaborators X) (inp : FrameInput) (s : State X) :
    Except Exn (State X) :=
  match idleBlock env inp s with
  | Except.error e => Except.error e
  | Except.ok s1 => Except.ok (sessionBlock env inp s1)

/-- Lines 138-200: the callbacks and networking update that open a frame, then
the tool window. -/
def frame {X : Type} (env : Collaborators X) (inp : FrameInput) (s : State X) :
    Except Exn (State X) :=
  toolWindow env inp { s with ext := env.update s.ext }

/-! ## The room-status window (lines 203-269) -/

/-- The text "-". -/
def dashText : Str := [45]

/-- The text "N/A". -/
def naText : Str := [78, 47, 65]

/-- What one `ImGui::Text` call of the table prints: a string, or an `int`
through `%d`. -/
inductive Cell where
  | text (s : Str)
  | number (n : Int)
  deriving DecidableEq, Repr

/-- One `TableNextRow` of the user table; `member` is the loop variable
`memberID` the row was drawn for. -/
structure Row where
  member : SteamID
  name : Str
  latency : Cell
  relay : Cell
  deriving DecidableEq, Repr

/-- Lines 231-249: `ping` and `relayInfo` after the loop over the host's
connections, which stops at the first connection whose info is available and
names `memberID` as its remote identity. -/
def hostDiagnostics {X : Type} (env : Collaborators X) (x : X) (memberID : SteamID) :
    List Conn → Int × Str
  | [] => (0, naText)
  | conn :: rest =>
    match env.getConnectionInfo x conn with
    | some remote =>
      if remote = memberID then
        (env.getConnectionPing x conn, env.getConnectionRelayInfo x conn)
      else hostDiagnostics env x memberID rest
    | none => hostDiagnostics env x memberID rest

/-- Lines 231-232 and 253-258: `ping` and `relayInfo` on a client. -/
def clientDiagnostics {X : Type} (env : Collaborators X) (x : X) : Int × Str :=
  (env.getHostPing x,
    if env.getConnection x != k_HSteamNetConnection_Invalid then
      env.getConnectionRelayInfo x (env.getConnection x)
    else naText)

/-- Lines 218-263: the row of one lobby member. -/
def memberRow {X : Type} (env : Collaborators X) (x : X) (memberID : SteamID) : Row :=
  if memberID = env.mySteamID then
    { member := memberID, name := env.personaName memberID,
      latency := Cell.text dashText, relay := Cell.text dashText }
  else
    let d := if env.isHost x then hostDiagnostics env x memberID (env.getConnections x)
      else clientDiagnostics env x
    { member := memberID, name := env.personaName memberID,
      latency := Cell.number d.1, relay := Cell.text d.2 }

/-- Lines 214-264: the rows of the user table, one loop pass per lobby member. -/
def userTable {X : Type} (env : Collaborators X) (x : X) : List Row :=
  (env.getLobbyMembers x).map (memberRow env x)

/-- Lines 203-269: the room-status window, `none` when it is not shown;
`tableVisible` is what `ImGui::BeginTable` returns. -/
def roomStatusWindow {X : Type} (env : Collaborators X) (x : X) (tableVisible : Bool) :
    Option (List Row) :=
  if (env.isHost x || env.isConnected x) && env.lobbyValid x then
    some (if tableVisible then userTable env x else [])
  else none

/-! ## The run of the program -/

/-- What happens next in `main`: one more pass of the loop, or the window closes
and the code after the loop runs. -/
inductive Event where
  | frame (inp : FrameInput)
  | shutdown

/-- The program between events; `running` is false once `main` has left its
loop or an exception has escaped it. -/
structure Program (X : Type) where
  state : State X
  running : Bool

/-- One event of `main` (lines 132-291). -/
def step {X : Type} (env : Collaborators X) (p : Program X) (ev : Event) : Program X :=
  if p.running then
    match ev with
    | Event.frame inp =>
      match frame env inp p.state with
      | Except.ok s => { state := s, running := true }
      | Except.error _ => { state := p.state, running := false }
    | Event.shutdown => { state := shutdownCleanup p.state, running := false }
  else p

/-- The program after a sequence of events, from the start of the loop. -/
def run {X : Type} (env : Collaborators X) (x : X) (evs : List Event) : Program X :=
  evs.foldl (step env) { state := initState x, running := true }

/-! ## Start-up and shutdown of `main` (lines 28-71 and 284-309) -/

/-- The calls of `main` that matter for the reactor thread and the
collaborators' start-up and shutdown. -/
inductive Act where
  | SteamAPI_Init
  | make_work_guard
  | io_thread_start
  | steamManager_init
  | SteamAPI_Shutdown
  | glfwInit
  | steamManager_shutdown
  | glfwCreateWindow
  | glfwTerminate
  | startMessageHandler
  | mainLoop
  | stopMessageHandler
  | server_stop
  | work_guard_reset
  | io_context_stop
  | io_thread_join
  | glfwDestroyWindow
  | ret (code : Int)
  deriving DecidableEq, Repr

/-- The outcomes `main` branches on outside its loop: the four initialisations
and whether `server` is non-null after the loop. -/
structure Startup where
  steamApi : Bool
  manager : Bool
  glfw : Bool
  window : Bool
  serverHeld : Bool
  deriving DecidableEq, Repr

/-- The calls `main` makes, in order, on the path the outcomes select, ending
with its `return`. -/
def mainTrace (o : Startup) : List Act :=
  if !o.steamApi then [Act.SteamAPI_Init, Act.ret 1]
  else if !o.manager then
    [Act.SteamAPI_Init, Act.make_work_guard, Act.io_thread_start,
      Act.steamManager_init, Act.SteamAPI_Shutdown, Act.ret 1]
  else if !o.glfw then
    [Act.SteamAPI_Init, Act.make_work_guard, Act.io_thread_start,
      Act.steamManager_init, Act.glfwInit, Act.steamManager_shutdown, Act.ret (-1)]
  else if !o.window then
    [Act.SteamAPI_Init, Act.make_work_guard, Act.io_thread_start,
      Act.steamManager_init, Act.glfwInit, Act.glfwCreateWindow,
      Act.glfwTerminate, Act.SteamAPI_Shutdown, Act.ret (-1)]
  else
    [Act.SteamAPI_Init, Act.make_work_guard, Act.io_thread_start,
      Act.steamManager_init, Act.glfwInit, Act.glfwCreateWindow,
      Act.startMessageHandler, Act.mainLoop, Act.stopMessageHandler]
    ++ (if o.serverHeld then [Act.server_stop] else [])
    ++ [Act.work_guard_reset, Act.io_context_stop, Act.io_thread_join,
      Act.glfwDestroyWindow, Act.glfwTerminate, Act.steamManager_shutdown, Act.ret 0]

/-- Whether a trace releases the work guard, later stops the reactor and later
joins the reactor thread. -/
def releasesReactor (tr : List Act) : Bool :=
  ((tr.dropWhile (fun a => a != Act.work_guard_reset)).dropWhile
    (fun a => a != Act.io_context_stop)).contains Act.io_thread_join

/-! ## The bridged byte path -/

/-- Modelled from the spec: the bodies of `TCPClient::send` and
`TCPClient::handle_read` and the forwarding between a local endpoint and a peer
channel are not among the sources (`tcp_client.h` only declares them).  This is
the chunking of §4.4 step 1: a chunk is cut into messages of at most `maxSize`
bytes, in order. -/
def chunkToFit (maxSize : Nat) : Nat → Str → List Str
  | 0, _ => []
  | fuel + 1, bytes =>
    if bytes.isEmpty then []
    else bytes.take maxSize :: chunkToFit maxSize fuel (bytes.drop maxSize)

/-- Modelled from the spec: the forwarding code is not among the sources.  §4.4
step 1: every chunk read on the local endpoint goes, in arrival order, into one
or more `send` calls on the paired peer channel. -/
def peerSend (maxSize : Nat) (chunks : List Str) : List Str :=
  chunks.flatMap (fun c => chunkToFit maxSize c.length c)

/-- Modelled from the spec: the peer transport is an external service.  §4.3: it
delivers the bytes in order without loss; where it splits or merges messages is
its own choice, given here by the lengths `cuts` of the messages it delivers. -/
def resegment : List Nat → Str → List Str
  | _, [] => []
  | [], b :: bs => [b :: bs]
  | k :: ks, b :: bs => (b :: bs).take k :: resegment ks ((b :: bs).drop k)

/-- Modelled from the spec: the message handler is not among the sources.  §4.4
step 2: each message arriving through `onMessage` is passed verbatim, in the
order received, to the paired local endpoint. -/
def onMessage (received : List Str) : List Str := received

/-- Modelled from the spec: the path of §2 from the chunks sent into one side of
a pairing to the chunks observed on the other side. -/
def bridged (maxSize : Nat) (cuts : List Nat) (chunks : List Str) : List Str :=
  onMessage (resegment cuts (peerSend maxSize chunks).flatten)

/-! ## A stand-in for the collaborators -/

/-- The state of the in-memory stand-in: the hosting and connected flags, the
lobby members (empty: no lobby) and the open connections. -/
structure Fake where
  hosting : Bool
  connected : Bool
  members : List SteamID
  conns : List Conn
  deriving DecidableEq, Repr

/-- An in-memory stand-in for the collaborators, on which the handlers can be
evaluated: identity 1 is the local user, `joinHost` succeeds exactly when
`joinOk` and then opens connection 7 to the host. -/
def fakeEnv (joinOk : Bool) : Collaborators Fake :=
  { isHost := fun x => x.hosting
    isConnected := fun x => x.connected
    joinHost := fun x hostID =>
      if joinOk then (true, { x with connected := true, members := [hostID, 1], conns := [7] })
      else (false, x)
    disconnect := fun x => { x with hosting := false, connected := false, conns := [] }
    startHosting := fun x => { x with hosting := true, members := [1] }
    leaveLobby := fun x => { x with members := [] }
    lobbyValid := fun x => !x.members.isEmpty
    getLobbyMembers := fun x => x.members
    mySteamID := 1
    personaName := fun m => [80, 48 + m % 10]
    getConnections := fun x => x.conns
    getConnectionInfo := fun x c => if c ∈ x.conns then some (c + 1) else none
    getConnectionPing := fun _ c => 10 * c
    getConnectionRelayInfo := fun _ _ => [82]
    getHostPing := fun _ => 42
    getConnection := fun x => x.conns.headD k_HSteamNetConnection_Invalid
    getFriendsList := [(2, [65, 108, 105, 99, 101]), (3, [66, 111, 98])]
    matchmaking := true
    update := fun x => x }

/-- The stand-in's state before any session. -/
def fakeIdle : Fake := { hosting := false, connected := false, members := [], conns := [] }

/-- A frame in which nothing is clicked or edited; `TCPServer::start` would
succeed. -/
def quietFrame : FrameInput :=
  { hostPressed := false, joinText := none, joinPressed := false, disconnectPressed := false,
    portValue := none, filterText := none, inviteClicked := fun _ => false, startOk := true }

/-! ## The room-status rows as the specification words them -/

/-- The row of member `m` on the host in the words of the specification: "-"
twice for the local identity; otherwise the ping and relay descriptor of the
first connection whose info is available and names `m`, and 0 and "N/A" when
there is none. -/
def rowAsSpecified {X : Type} (env : Collaborators X) (x : X) (m : SteamID) : Row :=
  if m = env.mySteamID then
    { member := m, name := env.personaName m,
      latency := Cell.text dashText, relay := Cell.text dashText }
  else
    match (env.getConnections x).find? (fun c => env.getConnectionInfo x c == some m) with
    | some c =>
      { member := m, name := env.personaName m,
        latency := Cell.number (env.getConnectionPing x c),
        relay := Cell.text (env.getConnectionRelayInfo x c) }
    | none =>
      { member := m, name := env.personaName m,
        latency := Cell.number 0, relay := Cell.text naText }

/-- A hosting state of the stand-in with lobby members 1 (the local user), 8, 5
and 9 and connections 3, 7 and 4, whose remote identities are 4, 8 and 5. -/
def fakeHosting : Fake :=
  { hosting := true, connected := false, members := [1, 8, 5, 9], conns := [3, 7, 4] }

/-- A hosting state of the stand-in whose lobby still lists member 2 although no
connection is open. -/
def fakeLostPeer : Fake :=
  { hosting := true, connected := false, members := [1, 2], conns := [] }

/-- The text "123". -/
def roomText : Str := [49, 50, 51]

/-- A state of the stand-in's program that holds listener instance 0. -/
def fakeListening : State Fake :=
  { server := some { inst := 0, port := 8888, started := true, clients := 0 },
    localPort := 0, ext := { hosting := false, connected := true, members := [5, 1], conns := [7] },
    joinBuffer := roomText, filterBuffer := [], nextServer := 1, stopCalls := [], invites := [] }

/-- A join of room "123", a disconnect, a second disconnect click and the
shutdown. -/
def fakeSession : List Event :=
  [Event.frame { quietFrame with joinText := some roomText, joinPressed := true },
    Event.frame { quietFrame with disconnectPressed := true },
    Event.frame { quietFrame with disconnectPressed := true },
    Event.shutdown]

/-! ## The listener invariant -/

/-- What holds of the listener bookkeeping between two frames: no instance was
stopped twice, every stopped instance was built before, and the instance
`server` holds was built before and has not been stopped. -/
def ListenerInv {X : Type} (s : State X) : Prop :=
  s.stopCalls.Nodup ∧ (∀ i ∈ s.stopCalls, i < s.nextServer) ∧
    ∀ srv, s.server = some srv → srv.inst < s.nextServer ∧ srv.inst ∉ s.stopCalls

/-- What holds of the program after any events: no instance was stopped twice,
and while the loop runs the listener invariant holds. -/
def ProgramInv {X : Type} (p : Program X) : Prop :=
  p.state.stopCalls.Nodup ∧ (p.running = true → ListenerInv p.state)

/-! ## Lemmas on the string search -/

theorem startsWith_iff (hay needle : Str) :
    startsWith hay needle = true ↔ ∃ post, hay = needle ++ post := by
  induction hay generalizing needle with
  | nil =>
    cases needle with
    | nil => simp [startsWith]
    | cons n ns => simp [startsWith]
  | cons h hs ih =>
    cases needle with
    | nil => simp [startsWith]
    | cons n ns =>
      simp only [startsWith, Bool.and_eq_true, beq_iff_eq, ih, List.cons_append,
        List.cons.injEq]
      constructor
      · rintro ⟨rfl, post, rfl⟩
        exact ⟨post, rfl, rfl⟩
      · rintro ⟨post, rfl, rfl⟩
        exact ⟨rfl, post, rfl⟩

theorem findFrom_isSome_iff (needle hay : Str) (pos : Nat) :
    (findFrom needle hay pos).isSome = true ↔ ∃ pre post, hay = pre ++ needle ++ post := by
  induction hay generalizing pos with
  | nil =>
    cases needle with
    | nil => simp [findFrom]
    | cons n ns => simp [findFrom]
  | cons h hs ih =>
    unfold findFrom
    by_cases hsw : startsWith (h :: hs) needle = true
    · rw [if_pos hsw]
      obtain ⟨post, hpost⟩ := (startsWith_iff _ _).1 hsw
      simp only [Option.isSome_some, true_iff]
      exact ⟨[], post, by simpa using hpost⟩
    · rw [if_neg hsw, ih]
      constructor
      · rintro ⟨pre, post, rfl⟩
        exact ⟨h :: pre, post, by simp⟩
      · rintro ⟨pre, post, hpp⟩
        cases pre with
        | nil =>
          exact absurd ((startsWith_iff _ _).2 ⟨post, by simpa using hpp⟩) hsw
        | cons a pre =>
          simp only [List.cons_append, List.cons.injEq] at hpp
          exact ⟨pre, post, hpp.2⟩

theorem hostDiagnostics_eq {X : Type} (env : Collaborators X) (x : X) (m : SteamID)
    (conns : List Conn) :
    hostDiagnostics env x m conns =
      match conns.find? (fun c => env.getConnectionInfo x c == some m) with
      | some c => (env.getConnectionPing x c, env.getConnectionRelayInfo x c)
      | none => (0, naText) := by
  induction conns with
  | nil => simp [hostDiagnostics]
  | cons c rest ih =>
    unfold hostDiagnostics
    cases hinfo : env.getConnectionInfo x c with
    | none => simp [List.find?_cons, hinfo, ih]
    | some remote =>
      by_cases hrem : remote = m
      · simp [List.find?_cons, hinfo, hrem]
      · have hb : (remote == m) = false := by simpa using hrem
        simp [List.find?_cons, hinfo, hrem, hb, ih]

/-! ## The friend filter -/

/-- C8: the invite buttons are exactly the friends that pass the filter, in the
order of the friends list, each labelled with the label text followed by the
original name; and a name passes the filter if and only if the filter text is
empty or the lower-cased name contains the lower-cased filter text as a
contiguous run of bytes. -/
theorem renderInviteFriends_filter (friends : List (SteamID × Str)) (filterBuffer : Str) :
    renderInviteFriends friends filterBuffer =
        (friends.filter (fun p => friendShown filterBuffer p.2)).map
          (fun p => (p.1, inviteLabel ++ p.2))
      ∧ ∀ name : Str, (friendShown filterBuffer name = true ↔
          (filterBuffer = [] ∨
            ∃ pre post, name.map tolower = pre ++ filterBuffer.map tolower ++ post)) := by
  constructor
  · induction friends with
    | nil => rfl
    | cons p rest ih =>
      unfold renderInviteFriends
      by_cases hp : friendShown filterBuffer p.2 = true
      · simp [hp, ih]
      · simp [hp, ih]
  · intro name
    unfold friendShown find
    simp only [Bool.or_eq_true, List.isEmpty_iff, List.map_eq_nil_iff, findFrom_isSome_iff]

/-! ## The room-status table -/

/-- C6: on the host every row of the user table is the row the specification
words: "-" and "-" for the local identity, the ping and relay descriptor of the
first connection whose info is available and whose remote identity is the
member, and 0 and "N/A" when no such connection exists. -/
theorem userTable_host_rows {X : Type} (env : Collaborators X) (x : X)
    (hhost : env.isHost x = true) :
    userTable env x = (env.getLobbyMembers x).map (rowAsSpecified env x) := by
  unfold userTable
  apply List.map_congr_left
  intro m _
  unfold memberRow rowAsSpecified
  by_cases hme : m = env.mySteamID
  · simp [hme]
  · simp only [hme, if_false, hhost, if_true, hostDiagnostics_eq]
    cases (env.getConnections x).find? (fun c => env.getConnectionInfo x c == some m) <;> rfl

/-- C5 (as stated, refuted): on the host of the stand-in, with lobby members 1
(the local user) and 2 and no live connection, the user table has a row for
member 2, showing 0 and "N/A"; so it is false that a remote member has a row
only if some live connection has it as remote identity. -/
theorem userTable_row_without_connection :
    (fakeEnv true).isHost fakeLostPeer = true ∧
      (fakeEnv true).getConnections fakeLostPeer = [] ∧
      (userTable (fakeEnv true) fakeLostPeer).map (fun r => (r.member, r.latency, r.relay)) =
        [(1, Cell.text dashText, Cell.text dashText), (2, Cell.number 0, Cell.text naText)] ∧
      ¬ (∀ (env : Collaborators Fake) (x : Fake), env.isHost x = true →
        ∀ row ∈ userTable env x, row.member ≠ env.mySteamID →
          ∃ c ∈ env.getConnections x, env.getConnectionInfo x c = some row.member) := by
  refine ⟨rfl, rfl, by decide, ?_⟩
  intro h
  have hrow : memberRow (fakeEnv true) fakeLostPeer 2 ∈ userTable (fakeEnv true) fakeLostPeer := by
    simp [userTable, fakeEnv, fakeLostPeer]
  obtain ⟨c, hc, _⟩ := h (fakeEnv true) fakeLostPeer rfl _ hrow (by decide)
  simp [fakeEnv, fakeLostPeer] at hc

/-- C5 (amended): the user table has exactly one row per lobby member, in the
order of the member list, whatever the live connections are. -/
theorem userTable_members {X : Type} (env : Collaborators X) (x : X) :
    (userTable env x).map Row.member = env.getLobbyMembers x := by
  unfold userTable
  rw [List.map_map]
  conv_rhs => rw [← List.map_id (env.getLobbyMembers x)]
  apply List.map_congr_left
  intro m _
  simp only [Function.comp, memberRow, id]
  split <;> rfl

/-! ## The tool window -/

/-- C7 (as stated, refuted): on the hosting stand-in with local port 0, a frame
in which no button is pressed but the local-port field is edited to 25565 ends
with local port 25565; so it is false that every frame without a button press
leaves the listener handle, the local port and the connection set as they
were. -/
theorem toolWindow_port_edit_changes_state :
    (initState fakeHosting).localPort = 0 ∧
      (∃ s1, toolWindow (fakeEnv true) { quietFrame with portValue := some 25565 }
          (initState fakeHosting) = Except.ok s1 ∧ s1.localPort = 25565) ∧
      ¬ (∀ (env : Collaborators Fake) (inp : FrameInput) (s s1 : State Fake),
        inp.hostPressed = false → inp.joinPressed = false → inp.disconnectPressed = false →
        toolWindow env inp s = Except.ok s1 →
        s1.server = s.server ∧ s1.localPort = s.localPort ∧
          env.getConnections s1.ext = env.getConnections s.ext) := by
  refine ⟨rfl, ⟨_, rfl, rfl⟩, ?_⟩
  intro h
  have h1 := h (fakeEnv true) { quietFrame with portValue := some 25565 }
    (initState fakeHosting) _ rfl rfl rfl rfl
  exact absurd h1.2.1 (by decide)

/-- C7 (amended): a frame of the tool window in which none of the start-hosting,
join and disconnect buttons is pressed completes, leaves the listener handle
and the collaborators' state (hence the connection set) as they were, and
leaves the local port as it was unless the session is hosting and the
local-port field was edited, in which case the port is the entered value. -/
theorem toolWindow_without_buttons {X : Type} (env : Collaborators X) (inp : FrameInput)
    (s : State X) (hh : inp.hostPressed = false) (hj : inp.joinPressed = false)
    (hd : inp.disconnectPressed = false) :
    ∃ s1, toolWindow env inp s = Except.ok s1 ∧ s1.server = s.server ∧ s1.ext = s.ext ∧
      env.getConnections s1.ext = env.getConnections s.ext ∧
      s1.localPort = (if env.isHost s.ext then inp.portValue.getD s.localPort
        else s.localPort) := by
  unfold toolWindow idleBlock sessionBlock
  simp only [hh, hj, hd]
  cases hhost : env.isHost s.ext <;> cases hconn : env.isConnected s.ext <;>
    cases inp.joinText <;> cases inp.portValue <;> cases inp.filterText <;>
    simp [hhost, hconn]

/-- C7 witness: the amended statement at a hosting state with an edited port. -/
theorem toolWindow_without_buttons_witness :
    ∃ s1, toolWindow (fakeEnv true) { quietFrame with portValue := some 25565 }
        (initState fakeHosting) = Except.ok s1 ∧
      s1.server = (initState fakeHosting).server ∧ s1.ext = (initState fakeHosting).ext ∧
      (fakeEnv true).getConnections s1.ext =
        (fakeEnv true).getConnections (initState fakeHosting).ext ∧
      s1.localPort = (if (fakeEnv true).isHost (initState fakeHosting).ext then
        (some (25565 : Int)).getD (initState fakeHosting).localPort
        else (initState fakeHosting).localPort) :=
  toolWindow_without_buttons (fakeEnv true) { quietFrame with portValue := some 25565 }
    (initState fakeHosting) rfl rfl rfl

/-- C3: when the room id parses and `joinHost` reports failure, the join handler
completes and changes nothing but the collaborators' own state: no listener is
built, and the listener handle and the local port are as before. -/
theorem joinButton_failed {X : Type} (env : Collaborators X) (startOk : Bool) (s : State X)
    (hostID : Nat) (hparse : stoull s.joinBuffer = Except.ok hostID)
    (hfail : (env.joinHost s.ext hostID).1 = false) :
    joinButton env startOk s = Except.ok { s with ext := (env.joinHost s.ext hostID).2 } ∧
      ∃ s1, joinButton env startOk s = Except.ok s1 ∧ s1.server = s.server ∧
        s1.localPort = s.localPort ∧ s1.nextServer = s.nextServer ∧
        s1.stopCalls = s.stopCalls := by
  have h : joinButton env startOk s =
      Except.ok { s with ext := (env.joinHost s.ext hostID).2 } := by
    unfold joinButton
    rw [hparse]
    simp [hfail]
  exact ⟨h, _, h, rfl, rfl, rfl, rfl⟩

/-- C3 witness: room id "123" on the stand-in whose `joinHost` fails. -/
theorem joinButton_failed_witness :
    stoull ({ (initState fakeIdle) with joinBuffer := roomText } : State Fake).joinBuffer
        = Except.ok 123 ∧
      ((fakeEnv false).joinHost fakeIdle 123).1 = false ∧
      ∃ s1, joinButton (fakeEnv false) true { (initState fakeIdle) with joinBuffer := roomText }
          = Except.ok s1 ∧ s1.server = none ∧ s1.localPort = 0 ∧ s1.nextServer = 0 ∧
        s1.stopCalls = [] :=
  ⟨rfl, rfl,
    (joinButton_failed (fakeEnv false) true { (initState fakeIdle) with joinBuffer := roomText }
      123 rfl rfl).2⟩

/-- C4 (the code at the failing input): `joinHost` succeeds on room id "123" and
`TCPServer::start` fails; the join handler ends holding a listener that never
started, the window still reports a server on port 8888, and the connection
`joinHost` opened is still open. -/
theorem joinButton_listener_start_failure :
    ∃ s1, joinButton (fakeEnv true) false { (initState fakeIdle) with joinBuffer := roomText }
        = Except.ok s1 ∧
      s1.server = some { inst := 0, port := 8888, started := false, clients := 0 } ∧
      listenerStatus s1.server = some (8888, 0) ∧
      s1.ext = ((fakeEnv true).joinHost fakeIdle 123).2 ∧
      (fakeEnv true).isConnected s1.ext = true ∧ (fakeEnv true).getConnections s1.ext = [7] :=
  ⟨_, rfl, rfl, rfl, rfl, rfl, rfl⟩

/-- C9 (the code at the failing input): with the empty text the room-id field
starts with, pressing the join button throws `invalid_argument` out of the tool
window; letters do the same, and a number above `2^64 - 1` throws
`out_of_range`. -/
theorem toolWindow_join_empty_text_throws :
    toolWindow (fakeEnv true) { quietFrame with joinPressed := true } (initState fakeIdle)
        = Except.error Exn.invalid_argument ∧
      toolWindow (fakeEnv true)
          { quietFrame with joinPressed := true, joinText := some [97, 98, 99] }
          (initState fakeIdle) = Except.error Exn.invalid_argument ∧
      toolWindow (fakeEnv true)
          { quietFrame with joinPressed := true, joinText := some (List.replicate 20 57) }
          (initState fakeIdle) = Except.error Exn.out_of_range :=
  ⟨rfl, rfl, rfl⟩

/-! ## Start-up and shutdown -/

/-- C10 (the code at the failing inputs): when the networking manager, GLFW or
the window fails to initialise, `main` has started the reactor thread and
returns without releasing the work guard, stopping the reactor or joining the
thread; the normal path does all three. -/
theorem mainTrace_failure_paths_skip_join :
    (∀ o ∈ [({ steamApi := true, manager := false, glfw := true, window := true,
                serverHeld := false } : Startup),
             { steamApi := true, manager := true, glfw := false, window := true,
                serverHeld := false },
             { steamApi := true, manager := true, glfw := true, window := false,
                serverHeld := false }],
        Act.io_thread_start ∈ mainTrace o ∧ Act.work_guard_reset ∉ mainTrace o ∧
          Act.io_context_stop ∉ mainTrace o ∧ Act.io_thread_join ∉ mainTrace o ∧
          releasesReactor (mainTrace o) = false) ∧
      releasesReactor (mainTrace
        { steamApi := true, manager := true, glfw := true, window := true, serverHeld := true })
        = true := by
  decide

/-! ## Teardown -/

theorem listenerInv_of_eq {X : Type} {s t : State X} (hs : t.server = s.server)
    (hn : t.nextServer = s.nextServer) (hc : t.stopCalls = s.stopCalls)
    (h : ListenerInv s) : ListenerInv t := by
  unfold ListenerInv at *
  rw [hs, hn, hc]
  exact h

theorem listenerInv_initState {X : Type} (x : X) : ListenerInv (initState x) := by
  unfold ListenerInv initState
  simp

theorem listenerInv_joinButton {X : Type} (env : Collaborators X) (startOk : Bool)
    (s t : State X) (h : ListenerInv s) (hj : joinButton env startOk s = Except.ok t) :
    ListenerInv t := by
  unfold joinButton at hj
  cases hp : stoull s.joinBuffer with
  | error e => rw [hp] at hj; cases hj
  | ok hostID =>
    rw [hp] at hj
    simp only at hj
    by_cases hok : (env.joinHost s.ext hostID).1 = true
    · rw [if_pos hok] at hj
      cases hj
      obtain ⟨hnd, hlt, _⟩ := h
      refine ⟨hnd, fun i hi => Nat.lt_succ_of_lt (hlt i hi), ?_⟩
      intro srv hsrv
      simp only [Option.some.injEq] at hsrv
      subst hsrv
      exact ⟨Nat.lt_succ_self _, fun hmem => Nat.lt_irrefl _ (hlt _ hmem)⟩
    · rw [if_neg hok] at hj
      cases hj
      exact listenerInv_of_eq rfl rfl rfl h

theorem listenerInv_disconnectButton {X : Type} (env : Collaborators X) (s : State X)
    (h : ListenerInv s) : ListenerInv (disconnectButton env s) := by
  unfold disconnectButton
  cases hsrv : s.server with
  | none =>
    refine listenerInv_of_eq ?_ ?_ ?_ h
    · simp [hsrv]
    · rfl
    · rfl
  | some srv =>
    obtain ⟨hnd, hlt, hcur⟩ := h
    obtain ⟨hsl, hsn⟩ := hcur srv hsrv
    refine ⟨?_, ?_, ?_⟩
    · simp only [List.nodup_append, List.nodup_singleton, List.disjoint_singleton, true_and]
      exact ⟨hnd, hsn⟩
    · intro i hi
      simp only [List.mem_append, List.mem_singleton] at hi
      rcases hi with hi | hi
      · exact hlt i hi
      · rw [hi]; exact hsl
    · intro srv1 h1
      simp at h1

theorem nodup_shutdownCleanup {X : Type} (s : State X) (h : ListenerInv s) :
    (shutdownCleanup s).stopCalls.Nodup := by
  unfold shutdownCleanup
  cases hsrv : s.server with
  | none => exact h.1
  | some srv =>
    simp only [List.nodup_append, List.nodup_singleton, List.disjoint_singleton, true_and]
    exact ⟨h.1, (h.2.2 srv hsrv).2⟩

theorem listenerInv_idleBlock {X : Type} (env : Collaborators X) (inp : FrameInput)
    (s t : State X) (h : ListenerInv s) (hb : idleBlock env inp s = Except.ok t) :
    ListenerInv t := by
  unfold idleBlock at hb
  by_cases hidle : (!env.isHost s.ext && !env.isConnected s.ext) = true
  · rw [if_pos hidle] at hb
    simp only at hb
    have h2 : ListenerInv (match inp.joinText with
        | some t1 => { (if inp.hostPressed = true then
            { s with ext := env.startHosting s.ext } else s) with joinBuffer := storeText t1 }
        | none => if inp.hostPressed = true then
            { s with ext := env.startHosting s.ext } else s) := by
      cases inp.joinText <;> cases inp.hostPressed <;>
        exact listenerInv_of_eq rfl rfl rfl h
    by_cases hjp : inp.joinPressed = true
    · rw [if_pos hjp] at hb
      exact listenerInv_joinButton env _ _ _ h2 hb
    · rw [if_neg hjp] at hb
      cases hb
      exact h2
  · rw [if_neg hidle] at hb
    cases hb
    exact h

theorem listenerInv_sessionBlock {X : Type} (env : Collaborators X) (inp : FrameInput)
    (s : State X) (h : ListenerInv s) : ListenerInv (sessionBlock env inp s) := by
  unfold sessionBlock
  by_cases hses : (env.isHost s.ext || env.isConnected s.ext) = true
  · rw [if_pos hses]
    have h1 : ListenerInv (if inp.disconnectPressed = true then disconnectButton env s else s) := by
      cases inp.disconnectPressed
      · exact h
      · exact listenerInv_disconnectButton env s h
    generalize (if inp.disconnectPressed = true then disconnectButton env s else s) = s1 at h1
    apply listenerInv_of_eq ?_ ?_ ?_ h1
    · dsimp only
      cases env.isHost s1.ext <;> cases inp.portValue <;> cases inp.filterText <;> rfl
    · dsimp only
      cases env.isHost s1.ext <;> cases inp.portValue <;> cases inp.filterText <;> rfl
    · dsimp only
      cases env.isHost s1.ext <;> cases inp.portValue <;> cases inp.filterText <;> rfl
  · rw [if_neg hses]
    exact h

theorem listenerInv_frame {X : Type} (env : Collaborators X) (inp : FrameInput)
    (s t : State X) (h : ListenerInv s) (hf : frame env inp s = Except.ok t) :
    ListenerInv t := by
  unfold frame toolWindow at hf
  have h0 : ListenerInv { s with ext := env.update s.ext } := listenerInv_of_eq rfl rfl rfl h
  cases hb : idleBlock env inp { s with ext := env.update s.ext } with
  | error e => rw [hb] at hf; cases hf
  | ok s1 =>
    rw [hb] at hf
    cases hf
    exact listenerInv_sessionBlock env inp s1 (listenerInv_idleBlock env inp _ s1 h0 hb)

theorem programInv_step {X : Type} (env : Collaborators X) (p : Program X) (ev : Event)
    (h : ProgramInv p) : ProgramInv (step env p ev) := by
  unfold step
  cases hr : p.running with
  | false => simpa using h
  | true =>
    have hinv := h.2 hr
    simp only [if_true]
    cases ev with
    | shutdown => exact ⟨nodup_shutdownCleanup p.state hinv, fun hf => by cases hf⟩
    | frame inp =>
      dsimp only
      cases hf : frame env inp p.state with
      | error e => exact ⟨h.1, fun hf => by cases hf⟩
      | ok t =>
        have ht := listenerInv_frame env inp p.state t hinv hf
        exact ⟨ht.1, fun _ => ht⟩

theorem programInv_foldl {X : Type} (env : Collaborators X) (evs : List Event)
    (p : Program X) (h : ProgramInv p) : ProgramInv (evs.foldl (step env) p) := by
  induction evs generalizing p with
  | nil => exact h
  | cons ev rest ih => exact ih (step env p ev) (programInv_step env p ev h)

theorem disconnectButton_twice {X : Type} (env : Collaborators X) (s : State X) :
    disconnectButton env (disconnectButton env s) =
      { (disconnectButton env s) with
        ext := env.disconnect (env.leaveLobby (disconnectButton env s).ext) } := by
  unfold disconnectButton
  cases s.server <;> rfl

theorem disconnectButton_server {X : Type} (env : Collaborators X) (s : State X) :
    (disconnectButton env s).server = none := by
  unfold disconnectButton
  cases hs : s.server <;> simp [hs]

/-- C2: a second run of the disconnect handler changes nothing but the
collaborators' own state, on which it repeats `leaveLobby` and `disconnect`, so
it leaves the same state as the first run whenever that repetition is without
effect; the second run and the shutdown cleanup after a disconnect call
`stop()` on no listener; and over any sequence of frames (with any buttons
pressed) and shutdown events from the start of the loop, `stop()` is called at
most once on any one listener instance. -/
theorem teardown_idempotent {X : Type} (env : Collaborators X) :
    (∀ s : State X,
        disconnectButton env (disconnectButton env s) =
          { (disconnectButton env s) with
            ext := env.disconnect (env.leaveLobby (disconnectButton env s).ext) }) ∧
      (∀ s : State X,
        (∀ x, env.disconnect (env.leaveLobby (env.disconnect (env.leaveLobby x))) =
          env.disconnect (env.leaveLobby x)) →
        disconnectButton env (disconnectButton env s) = disconnectButton env s) ∧
      (∀ s : State X,
        (disconnectButton env (disconnectButton env s)).stopCalls =
          (disconnectButton env s).stopCalls ∧
        (shutdownCleanup (disconnectButton env s)).stopCalls =
          (disconnectButton env s).stopCalls) ∧
      (∀ (x : X) (evs : List Event) (inst : Nat),
        (run env x evs).state.stopCalls.count inst ≤ 1) := by
  refine ⟨disconnectButton_twice env, ?_, ?_, ?_⟩
  · intro s hidem
    rw [disconnectButton_twice]
    have hext : (disconnectButton env s).ext = env.disconnect (env.leaveLobby s.ext) := by
      unfold disconnectButton
      cases s.server <;> rfl
    rw [hext, hidem]
    conv_rhs => rw [← show ({ (disconnectButton env s) with
      ext := (disconnectButton env s).ext } : State X) = disconnectButton env s from rfl]
    rw [hext]
  · intro s
    constructor
    · rw [disconnectButton_twice]
    · unfold shutdownCleanup
      rw [disconnectButton_server]
  · intro x evs inst
    have hinit : ProgramInv ({ state := initState x, running := true } : Program X) :=
      ⟨(listenerInv_initState x).1, fun _ => listenerInv_initState x⟩
    exact List.nodup_iff_count_le_one.1 (programInv_foldl env evs _ hinit).1 inst

/-- C2 witness: on the stand-in, whose teardown is idempotent, a second
disconnect leaves the state of the first; a session with a join, two
disconnects and the shutdown stops instance 0 exactly once. -/
theorem teardown_idempotent_witness :
    disconnectButton (fakeEnv true) (disconnectButton (fakeEnv true) fakeListening) =
        disconnectButton (fakeEnv true) fakeListening ∧
      (disconnectButton (fakeEnv true) fakeListening).stopCalls = [0] ∧
      (run (fakeEnv true) fakeIdle fakeSession).state.stopCalls = [0] ∧
      (run (fakeEnv true) fakeIdle fakeSession).state.stopCalls.count 0 ≤ 1 :=
  ⟨(teardown_idempotent (fakeEnv true)).2.1 fakeListening (fun _ => rfl), rfl, rfl,
    (teardown_idempotent (fakeEnv true)).2.2.2 fakeIdle fakeSession 0⟩

/-- C6 witness: the host table of the stand-in with members 1 (local), 8, 5
and 9 and connections 3, 7 and 4. -/
theorem userTable_host_rows_witness :
    (fakeEnv true).isHost fakeHosting = true ∧
      userTable (fakeEnv true) fakeHosting =
        ((fakeEnv true).getLobbyMembers fakeHosting).map
          (rowAsSpecified (fakeEnv true) fakeHosting) ∧
      (userTable (fakeEnv true) fakeHosting).map (fun r => (r.member, r.latency, r.relay)) =
        [(1, Cell.text dashText, Cell.text dashText), (8, Cell.number 70, Cell.text [82]),
          (5, Cell.number 40, Cell.text [82]), (9, Cell.number 0, Cell.text naText)] :=
  ⟨rfl, userTable_host_rows (fakeEnv true) fakeHosting rfl, by decide⟩

/-! ## The bridged byte path -/

theorem chunkToFit_flatten (maxSize : Nat) (hmax : 0 < maxSize) (fuel : Nat) (bytes : Str)
    (hfuel : bytes.length ≤ fuel) : (chunkToFit maxSize fuel bytes).flatten = bytes := by
  induction fuel generalizing bytes with
  | zero =>
    have : bytes = [] := List.length_eq_zero.1 (Nat.le_zero.1 hfuel)
    subst this
    rfl
  | succ fuel ih =>
    unfold chunkToFit
    cases bytes with
    | nil => rfl
    | cons b bs =>
      have hlen : ((b :: bs).drop maxSize).length ≤ fuel := by
        rw [List.length_drop]
        simp only [List.length_cons] at hfuel ⊢
        omega
      simp only [List.isEmpty_cons, Bool.false_eq_true, if_false, List.flatten_cons,
        ih _ hlen, List.take_append_drop]

theorem peerSend_flatten (maxSize : Nat) (hmax : 0 < maxSize) (chunks : List Str) :
    (peerSend maxSize chunks).flatten = chunks.flatten := by
  unfold peerSend
  induction chunks with
  | nil => rfl
  | cons c rest ih =>
    simp only [List.flatMap_cons, List.flatten_append, List.flatten_cons, ih,
      chunkToFit_flatten maxSize hmax c.length c (Nat.le_refl _)]

theorem resegment_flatten (cuts : List Nat) (bytes : Str) :
    (resegment cuts bytes).flatten = bytes := by
  induction cuts generalizing bytes with
  | nil =>
    cases bytes with
    | nil => rfl
    | cons b bs => simp [resegment]
  | cons k ks ih =>
    cases bytes with
    | nil => rfl
    | cons b bs =>
      unfold resegment
      rw [List.flatten_cons, ih, List.take_append_drop]

/-- C1: with a positive maximum message size, the chunks observed on the far
side of a bridged pairing, concatenated in delivery order, are the
concatenation of the chunks sent, wherever the transport cut the messages. -/
theorem bridged_order_preserved (maxSize : Nat) (cuts : List Nat) (chunks : List Str)
    (hmax : 0 < maxSize) : (bridged maxSize cuts chunks).flatten = chunks.flatten := by
  unfold bridged onMessage
  rw [resegment_flatten, peerSend_flatten maxSize hmax]

/-- C1 witness: three chunks, messages of at most 4 bytes, redelivered in
messages of 1, 0, 6 and the remaining bytes. -/
theorem bridged_order_preserved_witness :
    0 < 4 ∧
      bridged 4 [1, 0, 6] [[1, 2, 3, 4, 5, 6], [], [7, 8, 9]] =
        [[1], [], [2, 3, 4, 5, 6, 7], [8, 9]] ∧
      (bridged 4 [1, 0, 6] [[1, 2, 3, 4, 5, 6], [], [7, 8, 9]]).flatten =
        ([[1, 2, 3, 4, 5, 6], [], [7, 8, 9]] : List Str).flatten :=
  ⟨by decide, by decide, bridged_order_preserved 4 [1, 0, 6] [[1, 2, 3, 4, 5, 6], [], [7, 8, 9]]
    (by decide)⟩

end ConnectTool
